import Mathlib

/-!
Verification development for the multivariable-derivative visualizer
(src/Calculus.js).  The numeric sampling, plot-data assembly, caching and
validation logic of the source file is embedded shallowly below; theorems
about the claims of the specification follow the definitions.

Numbers are modelled as exact rationals extended with the JavaScript special
values Infinity, -Infinity and NaN (`JsNum`): JavaScript arithmetic never
throws, so division by zero produces an infinite value rather than an error.
Floating-point rounding is idealized away (exact rational arithmetic); the
special-value algebra (Inf, NaN propagation) follows IEEE-754 / JavaScript.
-/

namespace CalcViz

/-- A JavaScript number: a finite (exact rational) value, an infinity, or NaN.
Models the numeric results produced by math.js expression evaluation. -/
inductive JsNum where
  | fin (q : ℚ)
  | inf
  | negInf
  | nan
deriving DecidableEq

/-- Whether a JS number is finite (a genuine real value). -/
def JsNum.isFinite : JsNum → Bool
  | .fin _ => true
  | _ => false

/-- Whether a JS number is positive infinity. -/
def JsNum.isInf : JsNum → Bool
  | .inf => true
  | _ => false

/-- JavaScript addition on extended numbers (NaN absorbs, Inf + -Inf = NaN). -/
def jsAdd : JsNum → JsNum → JsNum
  | .nan, _ => .nan
  | _, .nan => .nan
  | .fin a, .fin b => .fin (a + b)
  | .fin _, .inf => .inf
  | .fin _, .negInf => .negInf
  | .inf, .fin _ => .inf
  | .negInf, .fin _ => .negInf
  | .inf, .inf => .inf
  | .negInf, .negInf => .negInf
  | .inf, .negInf => .nan
  | .negInf, .inf => .nan

/-- JavaScript negation on extended numbers. -/
def jsNeg : JsNum → JsNum
  | .fin a => .fin (-a)
  | .inf => .negInf
  | .negInf => .inf
  | .nan => .nan

/-- JavaScript subtraction on extended numbers. -/
def jsSub (a b : JsNum) : JsNum := jsAdd a (jsNeg b)

/-- JavaScript multiplication on extended numbers (0 * Inf = NaN). -/
def jsMul : JsNum → JsNum → JsNum
  | .nan, _ => .nan
  | _, .nan => .nan
  | .fin a, .fin b => .fin (a * b)
  | .fin a, .inf => if 0 < a then .inf else if a < 0 then .negInf else .nan
  | .fin a, .negInf => if 0 < a then .negInf else if a < 0 then .inf else .nan
  | .inf, .fin b => if 0 < b then .inf else if b < 0 then .negInf else .nan
  | .negInf, .fin b => if 0 < b then .negInf else if b < 0 then .inf else .nan
  | .inf, .inf => .inf
  | .inf, .negInf => .negInf
  | .negInf, .inf => .negInf
  | .negInf, .negInf => .inf

/-- JavaScript division on extended numbers: a finite nonzero value divided by
zero yields a signed infinity (JavaScript has no division-by-zero error);
0/0 and Inf/Inf yield NaN.  Signed zero is idealized away: the literal zero of
the rationals behaves as JavaScript's +0. -/
def jsDiv : JsNum → JsNum → JsNum
  | .nan, _ => .nan
  | _, .nan => .nan
  | .fin a, .fin b =>
      if b = 0 then (if 0 < a then .inf else if a < 0 then .negInf else .nan)
      else .fin (a / b)
  | .fin _, .inf => .fin 0
  | .fin _, .negInf => .fin 0
  | .inf, .fin b => if 0 ≤ b then .inf else .negInf
  | .negInf, .fin b => if 0 ≤ b then .negInf else .inf
  | .inf, .inf => .nan
  | .inf, .negInf => .nan
  | .negInf, .inf => .nan
  | .negInf, .negInf => .nan

instance : Add JsNum := ⟨jsAdd⟩

instance : Neg JsNum := ⟨jsNeg⟩

instance : Sub JsNum := ⟨jsSub⟩

instance : Mul JsNum := ⟨jsMul⟩

instance : Div JsNum := ⟨jsDiv⟩

/-- JavaScript natural-number power by repeated multiplication
(x ** 0 = 1 for every x, NaN included, as in JavaScript). -/
def jsNpow (v : JsNum) : ℕ → JsNum
  | 0 => .fin 1
  | n + 1 => jsMul v (jsNpow v n)

/-- Abstract syntax of the arithmetic expression fragment handled by the
external math.js collaborator (spec section 6): rational constants, the
variables x and y, and the arithmetic operators used by the documented
example expressions.  Parsing of raw text into this syntax is the external
library's job and is treated as a parameter below. -/
inductive Expr where
  | num (q : ℚ)
  | varX
  | varY
  | add (a b : Expr)
  | sub (a b : Expr)
  | mul (a b : Expr)
  | div (a b : Expr)
  | neg (a : Expr)
  | pow (a : Expr) (n : ℕ)
deriving DecidableEq

/-- Numeric evaluation of an expression at a point, modelling
`Expr.evaluate({x, y})` of the external evaluator with JavaScript numeric
semantics: total, returning Infinity or NaN where the function is undefined
as a real. -/
def evalExpr : Expr → ℚ → ℚ → JsNum
  | .num q, _, _ => .fin q
  | .varX, x, _ => .fin x
  | .varY, _, y => .fin y
  | .add a b, x, y => jsAdd (evalExpr a x y) (evalExpr b x y)
  | .sub a b, x, y => jsSub (evalExpr a x y) (evalExpr b x y)
  | .mul a b, x, y => jsMul (evalExpr a x y) (evalExpr b x y)
  | .div a b, x, y => jsDiv (evalExpr a x y) (evalExpr b x y)
  | .neg a, x, y => jsNeg (evalExpr a x y)
  | .pow a n, x, y => jsNpow (evalExpr a x y) n

/-- Symbolic partial derivative, modelling `math.derivative(f, v)` of the
external collaborator by the standard differentiation rules
(`vx = true` differentiates with respect to x, otherwise with respect to y). -/
def deriv : Expr → Bool → Expr
  | .num _, _ => .num 0
  | .varX, vx => .num (if vx then 1 else 0)
  | .varY, vx => .num (if vx then 0 else 1)
  | .add a b, vx => .add (deriv a vx) (deriv b vx)
  | .sub a b, vx => .sub (deriv a vx) (deriv b vx)
  | .mul a b, vx => .add (.mul (deriv a vx) b) (.mul a (deriv b vx))
  | .div a b, vx =>
      .div (.sub (.mul (deriv a vx) b) (.mul a (deriv b vx))) (.pow b 2)
  | .neg a, vx => .neg (deriv a vx)
  | .pow a n, vx => .mul (.mul (.num n) (.pow a (n - 1))) (deriv a vx)

/-- Ceiling of a rational as an integer, by floor division on the numerator
(the denominator of a `Rat` is always positive). -/
def ratCeil (q : ℚ) : ℤ := Int.fdiv (q.num + (q.den : ℤ) - 1) (q.den : ℤ)

/-- Models `math.range(a, b, step).toArray()`: the arithmetic progression
starting at `a` with the given step, excluding the end bound. -/
def mathRange (a b step : ℚ) : List ℚ :=
  (List.range (ratCeil ((b - a) / step)).toNat).map fun i => a + i * step

/-- The 3D sampling grid of `generate3DPlotData` (src lines 145-147):
`math.range(-5, 5, 0.25)`. -/
def grid3D : List ℚ := mathRange (-5) 5 (1/4)

/-- The 2D sampling grid of `generate2DPlotData` (src lines 217-219):
`math.range(-5, 5, 0.5)`. -/
def grid2D : List ℚ := mathRange (-5) 5 (1/2)

/-- `Utils.formatNumber` (src lines 84-87): values of magnitude below 0.001
display as 0, otherwise rounded to two decimals (`toFixed(2)` idealized as
exact half-up rounding). -/
def formatNumber (q : ℚ) : ℚ :=
  if |q| < 1/1000 then 0 else (Int.floor (q * 100 + 1/2) : ℚ) / 100

/-- The five per-series visibility flags (`AppState.plotVisibility`). -/
structure Visibility where
  surface : Bool
  tangentPlane : Bool
  gradient : Bool
  contour : Bool
  vectors : Bool
deriving DecidableEq

/-- A surface-type plot series (used for the surface and the tangent plane):
grid coordinates, height grid, theme-dependent colorscale, visibility flag.
Constant attributes of the source objects (type, name, opacity, showscale)
are omitted as they never vary. -/
structure SurfaceSeries where
  x : List ℚ
  y : List ℚ
  z : List (List JsNum)
  colorscale : List Char
  visible : Bool

/-- The evaluation-point marker series; `nameFmt` carries the formatted
coordinates shown in the series name. -/
structure PointSeries where
  x : List ℚ
  y : List ℚ
  z : List JsNum
  nameFmt : ℚ × ℚ
  visible : Bool

/-- The two-point gradient segment series. -/
structure GradientSeries where
  x : List JsNum
  y : List JsNum
  z : List JsNum
  visible : Bool

/-- One gradient-field arrow of the 2D plot. -/
structure VectorSeries where
  x : List JsNum
  y : List JsNum
  visible : Bool

/-- The 2D contour series. -/
structure ContourSeries where
  x : List ℚ
  y : List ℚ
  z : List (List JsNum)
  visible : Bool

/-- The value returned by `PlotManager.generate3DPlotData`, including the
`derivatives` payload (fx0, fy0, f0 and the symbolic derivatives). -/
structure Plot3DData where
  surface : SurfaceSeries
  tangentPlane : SurfaceSeries
  point : PointSeries
  gradient : GradientSeries
  fx0 : JsNum
  fy0 : JsNum
  f0 : JsNum
  fxExpr : Expr
  fyExpr : Expr

/-- The value returned by `PlotManager.generate2DPlotData`. -/
structure Plot2DData where
  contour : ContourSeries
  vectors : List VectorSeries

/-- `PlotManager.generate3DPlotData` (src lines 136-205): samples the function
over the fixed grid, evaluates f, fx, fy at the center point, and assembles
the surface, tangent-plane, point-marker and gradient series.  Visibility and
theme are passed explicitly (the source reads them from the global
`AppState`). -/
def generate3DPlotData (e : Expr) (x0 y0 : ℚ) (vis : Visibility) (dark : Bool) :
    Plot3DData :=
  let fx := deriv e true
  let fy := deriv e false
  let xVals := grid3D
  let yVals := grid3D
  let zVals := xVals.map fun x => yVals.map fun y => evalExpr e x y
  let fx0 := evalExpr fx x0 y0
  let fy0 := evalExpr fy x0 y0
  let f0 := evalExpr e x0 y0
  let tangentZ := xVals.map fun x => yVals.map fun y =>
    f0 + fx0 * JsNum.fin (x - x0) + fy0 * JsNum.fin (y - y0)
  { surface :=
      { x := xVals, y := yVals, z := zVals
        colorscale := if dark then "Viridis".data else "Blues".data
        visible := vis.surface }
    tangentPlane :=
      { x := xVals, y := yVals, z := tangentZ
        colorscale := if dark then "YlOrRd".data else "Reds".data
        visible := vis.tangentPlane }
    point :=
      { x := [x0], y := [y0], z := [f0]
        nameFmt := (formatNumber x0, formatNumber y0)
        visible := true }
    gradient :=
      { x := [JsNum.fin x0, JsNum.fin x0 + fx0 / JsNum.fin 2]
        y := [JsNum.fin y0, JsNum.fin y0 + fy0 / JsNum.fin 2]
        z := [f0, f0 + (fx0 + fy0) / JsNum.fin 2]
        visible := vis.gradient }
    fx0 := fx0, fy0 := fy0, f0 := f0, fxExpr := fx, fyExpr := fy }

/-- `PlotManager.generate2DPlotData` (src lines 208-256): contour heights over
the 2D grid and one gradient-field arrow per grid point, each from (x, y) to
(x + 0.2*fx, y + 0.2*fy).  The x0, y0 parameters are accepted but unused,
exactly as in the source. -/
def generate2DPlotData (e : Expr) (_x0 _y0 : ℚ) (vis : Visibility)
    (_dark : Bool) : Plot2DData :=
  let fx := deriv e true
  let fy := deriv e false
  let xs := grid2D
  let ys := grid2D
  let contourZ := xs.map fun x => ys.map fun y => evalExpr e x y
  let vectors := xs.flatMap fun x => ys.map fun y =>
    { x := [JsNum.fin x, JsNum.fin x + JsNum.fin (1/5) * evalExpr fx x y]
      y := [JsNum.fin y, JsNum.fin y + JsNum.fin (1/5) * evalExpr fy x y]
      visible := vis.vectors : VectorSeries }
  { contour :=
      { x := xs, y := ys, z := contourZ, visible := vis.contour }
    vectors := vectors }

/-- One entry of the trace list handed to the 3D renderer. -/
inductive Trace3D where
  | surfaceT (s : SurfaceSeries)
  | tangentT (s : SurfaceSeries)
  | pointT (s : PointSeries)
  | gradientT (s : GradientSeries)

/-- The visibility attribute of a 3D trace. -/
def Trace3D.visibleOf : Trace3D → Bool
  | .surfaceT s => s.visible
  | .tangentT s => s.visible
  | .pointT s => s.visible
  | .gradientT s => s.visible

/-- The trace list handed to the external renderer by
`PlotManager.render3DPlot` (src lines 259-265): the four series filtered by
their visible attribute. -/
def render3DTraces (d : Plot3DData) : List Trace3D :=
  [Trace3D.surfaceT d.surface, Trace3D.tangentT d.tangentPlane,
   Trace3D.pointT d.point, Trace3D.gradientT d.gradient].filter
    Trace3D.visibleOf

/-- A JavaScript whitespace character (the characters removed by
`String.prototype.trim`, restricted to the ASCII ones). -/
def isJsSpace (c : Char) : Bool :=
  c = ' ' || c = '\t' || c = '\n' || c = '\r'

/-- `String.prototype.trim`: removes leading and trailing whitespace
(src line 317 applies it to the raw expression input). -/
def jsTrim (s : List Char) : List Char :=
  ((s.dropWhile isJsSpace).reverse.dropWhile isJsSpace).reverse

/-- The string interpolation of the theme flag in the cache key
(`${AppState.isDarkMode}` renders as "true" or "false"). -/
def themeStr (dark : Bool) : List Char :=
  if dark then "true".data else "false".data

/-- The cache key of src line 350:
`\x7b$expr\x7d_\x7b$x0\x7d_\x7b$y0\x7d_\x7b$isDarkMode\x7d`, the four
components joined by underscore characters. -/
def mkCacheKey (exprText x0s y0s : List Char) (dark : Bool) : List Char :=
  exprText ++ '_' :: (x0s ++ '_' :: (y0s ++ '_' :: themeStr dark))

/-- Rendering of a JavaScript number as text for the cache key.  Idealized as
an injective fraction rendering; like JavaScript's number formatting it never
contains an underscore, which is all the cache-key analysis relies on. -/
def numStr (q : ℚ) : List Char :=
  (if q.num < 0 then ['-'] else []) ++ Nat.toDigits 10 q.num.natAbs ++
    (if q.den = 1 then [] else '/' :: Nat.toDigits 10 q.den)

/-- Lookup in the model of the JavaScript `Map` (`AppState.cachedPlots`),
an association list over string keys. -/
def mapLookup {α : Type} (k : List Char) : List (List Char × α) → Option α
  | [] => none
  | (k', v) :: rest => if k = k' then some v else mapLookup k rest

/-- `Map.set`: replaces the value at an existing key, otherwise appends. -/
def mapSet {α : Type} (k : List Char) (v : α) :
    List (List Char × α) → List (List Char × α)
  | [] => [(k, v)]
  | (k', v') :: rest =>
      if k = k' then (k', v) :: rest else (k', v') :: mapSet k v rest

/-- `Utils.validateExpression` (src lines 71-81): parse the text, then
test-evaluate at the sample point x = 1, y = 1 inside a try/catch.  In the
modelled numeric fragment evaluation is total (JavaScript arithmetic returns
Infinity or NaN instead of throwing), so only a parse failure is caught; the
test evaluation is performed but cannot reject.  The external parser is a
parameter. -/
def validateExpression (parse : List Char → Option Expr) (s : List Char) :
    Option Expr :=
  match parse s with
  | none => none
  | some e =>
      let _test := evalExpr e 1 1
      some e

/-- The persisted application state (`AppState`, src lines 2-16), restricted
to the fields the modelled logic reads or writes. -/
structure AppState where
  currentFunction : List Char
  x0 : ℚ
  y0 : ℚ
  isDarkMode : Bool
  plotVisibility : Visibility
  cachedPlots : List (List Char × (Plot3DData × Plot2DData))

/-- The initial `AppState` values (src lines 2-16). -/
def initialState : AppState :=
  { currentFunction := "x^2 + y^2".data
    x0 := 1
    y0 := 2
    isDarkMode := false
    plotVisibility := ⟨true, true, true, true, true⟩
    cachedPlots := [] }

/-- Outcome of one `plotFunction` invocation: the state after the call,
whether the catch branch reported an error, and how many sampler/assembler
invocations (`generate3DPlotData` / `generate2DPlotData`) ran. -/
structure PlotResult where
  state : AppState
  errored : Bool
  samplerRuns : ℕ

/-- `plotFunction` (src lines 313-359), the controller: trims the raw
expression text, rejects empty or unparseable input before any sampler call,
otherwise updates the stored expression and point, runs both generators, and
stores the pair in the cache under the composite key.  The cache is written
on line 351 but never read anywhere in the source.  DOM reads/writes,
rendering and the loading overlay are external effects outside the model. -/
def plotFunction (parse : List Char → Option Expr) (funcText : List Char)
    (x0v y0v : ℚ) (st : AppState) : PlotResult :=
  let expr := jsTrim funcText
  if expr = [] then
    { state := st, errored := true, samplerRuns := 0 }
  else
    match validateExpression parse expr with
    | none => { state := st, errored := true, samplerRuns := 0 }
    | some e =>
        let st1 := { st with currentFunction := expr, x0 := x0v, y0 := y0v }
        let plot3dData := generate3DPlotData e x0v y0v st.plotVisibility
          st.isDarkMode
        let plot2dData := generate2DPlotData e x0v y0v st.plotVisibility
          st.isDarkMode
        let cacheKey := mkCacheKey expr (numStr x0v) (numStr y0v)
          st.isDarkMode
        { state := { st1 with
            cachedPlots := mapSet cacheKey (plot3dData, plot2dData)
              st1.cachedPlots }
          errored := false
          samplerRuns := 2 }

/-- The tangent-plane height formula of src line 156 (and spec section 4.1):
`f(x0,y0) + fx(x0,y0)*(x - x0) + fy(x0,y0)*(y - y0)`, evaluated with
JavaScript numeric semantics. -/
def tangentHeight (e : Expr) (x0 y0 x y : ℚ) : JsNum :=
  evalExpr e x0 y0 + evalExpr (deriv e true) x0 y0 * JsNum.fin (x - x0) +
    evalExpr (deriv e false) x0 y0 * JsNum.fin (y - y0)

/-- Names for the five visibility toggles (src lines 404-427). -/
inductive VisFlag where
  | surface
  | tangentPlane
  | gradient
  | contour
  | vectors
deriving DecidableEq

/-- Toggling one visibility flag (the toggle handlers of src lines 404-427). -/
def Visibility.flip : VisFlag → Visibility → Visibility
  | .surface, v => { v with surface := !v.surface }
  | .tangentPlane, v => { v with tangentPlane := !v.tangentPlane }
  | .gradient, v => { v with gradient := !v.gradient }
  | .contour, v => { v with contour := !v.contour }
  | .vectors, v => { v with vectors := !v.vectors }

/-- Reading the flag a toggle controls. -/
def Visibility.flagOf : VisFlag → Visibility → Bool
  | .surface, v => v.surface
  | .tangentPlane, v => v.tangentPlane
  | .gradient, v => v.gradient
  | .contour, v => v.contour
  | .vectors, v => v.vectors

/-- Overwriting only the visible attribute of the 3D series a flag controls
(identity for the two 2D flags). -/
def apply3D : VisFlag → Bool → Plot3DData → Plot3DData
  | .surface, b, d => { d with surface := { d.surface with visible := b } }
  | .tangentPlane, b, d =>
      { d with tangentPlane := { d.tangentPlane with visible := b } }
  | .gradient, b, d => { d with gradient := { d.gradient with visible := b } }
  | .contour, _, d => d
  | .vectors, _, d => d

/-- Overwriting only the visible attribute of the 2D series a flag controls
(identity for the three 3D flags). -/
def apply2D : VisFlag → Bool → Plot2DData → Plot2DData
  | .contour, b, d => { d with contour := { d.contour with visible := b } }
  | .vectors, b, d =>
      { d with vectors := d.vectors.map fun v => { v with visible := b } }
  | .surface, _, d => d
  | .tangentPlane, _, d => d
  | .gradient, _, d => d

/-- The expression 1/x, the boundary example of spec section 8. -/
def oneOverX : Expr := .div (.num 1) .varX

/-- The expression x^2 + y^2, the paraboloid example of spec section 8. -/
def parabExpr : Expr := .add (.pow .varX 2) (.pow .varY 2)

/-- A concrete instance of the external parser recognizing the single
expression text "x". -/
def parseJustX : List Char → Option Expr :=
  fun s => if s = "x".data then some Expr.varX else none

/-- A concrete instance of the external parser recognizing the single
expression text "x^2". -/
def parseJustXsq : List Char → Option Expr :=
  fun s => if s = "x^2".data then some (Expr.pow .varX 2) else none

/-- A concrete instance of the external parser recognizing the single
expression text "1/x". -/
def parseJustRecip : List Char → Option Expr :=
  fun s => if s = "1/x".data then some oneOverX else none

/-- Adding the finite zero is the identity on every JS number. -/
lemma jsAdd_fin_zero (v : JsNum) : v + JsNum.fin 0 = v := by
  show jsAdd v (.fin 0) = v
  cases v <;> simp [jsAdd]

/-- A finite JS number times the finite zero is the finite zero. -/
lemma jsMul_fin_zero (v : JsNum) (h : v.isFinite = true) :
    v * JsNum.fin 0 = JsNum.fin 0 := by
  cases v with
  | fin q => show jsMul (.fin q) (.fin 0) = .fin 0; simp [jsMul]
  | inf => simp [JsNum.isFinite] at h
  | negInf => simp [JsNum.isFinite] at h
  | nan => simp [JsNum.isFinite] at h

/-- Looking up a key right after setting it returns the stored value
(the cache round-trip law of spec section 8). -/
lemma mapLookup_mapSet_self {α : Type} (k : List Char) (v : α)
    (m : List (List Char × α)) : mapLookup k (mapSet k v m) = some v := by
  induction m with
  | nil => simp [mapSet, mapLookup]
  | cons kv rest ih =>
      obtain ⟨k', v'⟩ := kv
      by_cases h : k = k'
      · simp [mapSet, mapLookup, h]
      · simp [mapSet, mapLookup, h, ih]

/-- C1: the tangent-plane heights sampled by `generate3DPlotData` are exactly
`f(x0,y0) + fx(x0,y0)*(x - x0) + fy(x0,y0)*(y - y0)` at every grid point, and
this tangent formula evaluated at the center point (x0, y0) itself gives
exactly f(x0, y0) (for finite derivative values at the center, as guaranteed
by a valid expression at a finite point). -/
theorem c1_tangent_plane_exact (e : Expr) (x0 y0 : ℚ) (vis : Visibility)
    (dark : Bool)
    (hfx : (evalExpr (deriv e true) x0 y0).isFinite = true)
    (hfy : (evalExpr (deriv e false) x0 y0).isFinite = true) :
    (generate3DPlotData e x0 y0 vis dark).tangentPlane.z
      = grid3D.map (fun x => grid3D.map fun y => tangentHeight e x0 y0 x y) ∧
    tangentHeight e x0 y0 x0 y0 = evalExpr e x0 y0 := by
  constructor
  · rfl
  · show evalExpr e x0 y0 +
        evalExpr (deriv e true) x0 y0 * JsNum.fin (x0 - x0) +
        evalExpr (deriv e false) x0 y0 * JsNum.fin (y0 - y0) = evalExpr e x0 y0
    rw [sub_self, sub_self, jsMul_fin_zero _ hfx, jsMul_fin_zero _ hfy,
      jsAdd_fin_zero, jsAdd_fin_zero]

/-- Witness for C1 at the paraboloid x^2 + y^2 and center point (1, 2). -/
theorem c1_tangent_plane_exact_witness :
    ((evalExpr (deriv parabExpr true) 1 2).isFinite = true ∧
     (evalExpr (deriv parabExpr false) 1 2).isFinite = true) ∧
    ((generate3DPlotData parabExpr 1 2 ⟨true, true, true, true, true⟩
        false).tangentPlane.z
      = grid3D.map (fun x => grid3D.map fun y => tangentHeight parabExpr 1 2 x y) ∧
     tangentHeight parabExpr 1 2 1 2 = evalExpr parabExpr 1 2) :=
  ⟨⟨by decide, by decide⟩,
    c1_tangent_plane_exact parabExpr 1 2 ⟨true, true, true, true, true⟩ false
      (by decide) (by decide)⟩

/-- C9: the gradient series is exactly the two-point segment from
(x0, y0, f0) to (x0 + fx0/2, y0 + fy0/2, f0 + (fx0+fy0)/2). -/
theorem c9_gradient_segment (e : Expr) (x0 y0 : ℚ) (vis : Visibility)
    (dark : Bool) :
    (generate3DPlotData e x0 y0 vis dark).gradient =
      { x := [JsNum.fin x0,
              JsNum.fin x0 + evalExpr (deriv e true) x0 y0 / JsNum.fin 2]
        y := [JsNum.fin y0,
              JsNum.fin y0 + evalExpr (deriv e false) x0 y0 / JsNum.fin 2]
        z := [evalExpr e x0 y0,
              evalExpr e x0 y0 +
                (evalExpr (deriv e true) x0 y0 +
                  evalExpr (deriv e false) x0 y0) / JsNum.fin 2]
        visible := vis.gradient } := rfl

/-- C10: the point-marker series always carries visible = true, for every
input, and is therefore always part of the trace list handed to the 3D
renderer. -/
theorem c10_point_marker_always_visible (e : Expr) (x0 y0 : ℚ)
    (vis : Visibility) (dark : Bool) :
    (generate3DPlotData e x0 y0 vis dark).point.visible = true ∧
    Trace3D.pointT (generate3DPlotData e x0 y0 vis dark).point
      ∈ render3DTraces (generate3DPlotData e x0 y0 vis dark) := by
  refine ⟨rfl, List.mem_filter.mpr ⟨?_, rfl⟩⟩
  simp

/-- C7: the sampling/assembly pipeline is deterministic: identical expression,
point, visibility and theme inputs produce identical 3D and 2D series sets
(the embedding is a pure function of exactly these inputs; the source reads
visibility and theme from `AppState`, passed here explicitly). -/
theorem c7_pipeline_deterministic (e e' : Expr) (x0 x0' y0 y0' : ℚ)
    (vis vis' : Visibility) (dark dark' : Bool)
    (he : e = e') (hx : x0 = x0') (hy : y0 = y0') (hv : vis = vis')
    (hd : dark = dark') :
    generate3DPlotData e x0 y0 vis dark
      = generate3DPlotData e' x0' y0' vis' dark' ∧
    generate2DPlotData e x0 y0 vis dark
      = generate2DPlotData e' x0' y0' vis' dark' := by
  subst he hx hy hv hd
  exact ⟨rfl, rfl⟩

/-- Witness for C7 at the expression x with inputs (1, 2), all series visible,
light theme. -/
theorem c7_pipeline_deterministic_witness :
    generate3DPlotData .varX 1 2 ⟨true, true, true, true, true⟩ false
      = generate3DPlotData .varX 1 2 ⟨true, true, true, true, true⟩ false ∧
    generate2DPlotData .varX 1 2 ⟨true, true, true, true, true⟩ false
      = generate2DPlotData .varX 1 2 ⟨true, true, true, true, true⟩ false :=
  c7_pipeline_deterministic .varX .varX 1 1 2 2
    ⟨true, true, true, true, true⟩ ⟨true, true, true, true, true⟩ false false
    rfl rfl rfl rfl rfl

/-- C8: toggling exactly one visibility flag between two assemblies with
identical expression, point and theme changes only the visible attribute of
the corresponding series; every other attribute of every series (all numeric
content included) is unchanged. -/
theorem c8_toggle_changes_only_visible (flag : VisFlag) (e : Expr)
    (x0 y0 : ℚ) (vis : Visibility) (dark : Bool) :
    generate3DPlotData e x0 y0 (Visibility.flip flag vis) dark
      = apply3D flag (!Visibility.flagOf flag vis)
          (generate3DPlotData e x0 y0 vis dark) ∧
    generate2DPlotData e x0 y0 (Visibility.flip flag vis) dark
      = apply2D flag (!Visibility.flagOf flag vis)
          (generate2DPlotData e x0 y0 vis dark) := by
  cases flag with
  | surface => exact ⟨rfl, rfl⟩
  | tangentPlane => exact ⟨rfl, rfl⟩
  | gradient => exact ⟨rfl, rfl⟩
  | contour => exact ⟨rfl, rfl⟩
  | vectors =>
      refine ⟨rfl, ?_⟩
      simp only [generate2DPlotData, apply2D, Visibility.flip,
        Visibility.flagOf, List.map_flatMap, List.map_map]
      rfl

/-- C3: on validation failure (empty after trimming, or unparseable) the
controller reports the error with zero sampler invocations and leaves the
entire persisted state, the stored expression and evaluation point included,
unchanged. -/
theorem c3_validation_failure_preserves_state
    (parse : List Char → Option Expr) (raw : List Char) (x0v y0v : ℚ)
    (st : AppState)
    (h : jsTrim raw = [] ∨ parse (jsTrim raw) = none) :
    (plotFunction parse raw x0v y0v st).errored = true ∧
    (plotFunction parse raw x0v y0v st).samplerRuns = 0 ∧
    (plotFunction parse raw x0v y0v st).state = st := by
  rcases h with h | h
  · simp [plotFunction, h]
  · by_cases he : jsTrim raw = []
    · simp [plotFunction, he]
    · simp [plotFunction, he, validateExpression, h]

/-- Witness for C3 at the invalid expression "x +" from the initial state. -/
theorem c3_validation_failure_preserves_state_witness :
    (jsTrim "x +".data = [] ∨ parseJustXsq (jsTrim "x +".data) = none) ∧
    ((plotFunction parseJustXsq "x +".data 1 2 initialState).errored = true ∧
     (plotFunction parseJustXsq "x +".data 1 2 initialState).samplerRuns = 0 ∧
     (plotFunction parseJustXsq "x +".data 1 2 initialState).state
       = initialState) :=
  ⟨Or.inr (by decide),
    c3_validation_failure_preserves_state parseJustXsq "x +".data 1 2
      initialState (Or.inr (by decide))⟩

/-- C2 counterexample: after a first successful request for ("x", 1, 2, light)
the composite key is stored in the cache, yet the identical repeated request
still runs both pipeline generators (samplerRuns = 2): the cache never
supplies the stored value. -/
theorem c2_counterexample_repeat_recomputes :
    ((plotFunction parseJustX "x".data 1 2 initialState).state.cachedPlots.map
        Prod.fst
      = [mkCacheKey "x".data (numStr 1) (numStr 2) false]) ∧
    (plotFunction parseJustX "x".data 1 2
        (plotFunction parseJustX "x".data 1 2 initialState).state).samplerRuns
      = 2 :=
  ⟨rfl, rfl⟩

/-- C2 amended: every successful request runs the sampling/assembly pipeline
unconditionally — even when the key is already cached — and then stores the
freshly assembled pair under the composite key; the cache is written but
never read. -/
theorem c2_amended_cache_write_only (parse : List Char → Option Expr)
    (raw : List Char) (x0v y0v : ℚ) (st : AppState) (e : Expr)
    (hne : jsTrim raw ≠ []) (hp : parse (jsTrim raw) = some e) :
    (plotFunction parse raw x0v y0v st).samplerRuns = 2 ∧
    mapLookup
        (mkCacheKey (jsTrim raw) (numStr x0v) (numStr y0v) st.isDarkMode)
        (plotFunction parse raw x0v y0v st).state.cachedPlots
      = some (generate3DPlotData e x0v y0v st.plotVisibility st.isDarkMode,
              generate2DPlotData e x0v y0v st.plotVisibility st.isDarkMode) := by
  simp [plotFunction, hne, validateExpression, hp, mapLookup_mapSet_self]

/-- Witness for the amended C2 at the expression "x" with point (3, 4). -/
theorem c2_amended_cache_write_only_witness :
    (jsTrim "x".data ≠ [] ∧ parseJustX (jsTrim "x".data) = some Expr.varX) ∧
    ((plotFunction parseJustX "x".data 3 4 initialState).samplerRuns = 2 ∧
     mapLookup
         (mkCacheKey (jsTrim "x".data) (numStr 3) (numStr 4)
           initialState.isDarkMode)
         (plotFunction parseJustX "x".data 3 4 initialState).state.cachedPlots
       = some (generate3DPlotData .varX 3 4 initialState.plotVisibility
                 initialState.isDarkMode,
               generate2DPlotData .varX 3 4 initialState.plotVisibility
                 initialState.isDarkMode)) :=
  ⟨⟨by decide, by decide⟩,
    c2_amended_cache_write_only parseJustX "x".data 3 4 initialState .varX
      (by decide) (by decide)⟩

/-- Splitting a separator-joined pair is unambiguous when the left parts are
separator-free. -/
lemma sep_split : ∀ (a a' b b' : List Char),
    '_' ∉ a → '_' ∉ a' → a ++ '_' :: b = a' ++ '_' :: b' →
    a = a' ∧ b = b' := by
  intro a
  induction a with
  | nil =>
      intro a' b b' _ ha' h
      cases a' with
      | nil => simpa using h
      | cons c t =>
          simp only [List.nil_append, List.cons_append, List.cons.injEq] at h
          rcases h with ⟨h1, _⟩
          subst h1
          exact absurd (List.mem_cons_self _ _) ha'
  | cons c t ih =>
      intro a' b b' ha ha' h
      cases a' with
      | nil =>
          simp only [List.cons_append, List.nil_append, List.cons.injEq] at h
          rcases h with ⟨h1, _⟩
          subst h1
          exact absurd (List.mem_cons_self _ _) ha
      | cons c' t' =>
          simp only [List.cons_append, List.cons.injEq] at h
          rcases h with ⟨h1, h2⟩
          subst h1
          obtain ⟨e1, e2⟩ := ih t' b b'
            (fun hm => ha (List.mem_cons_of_mem _ hm))
            (fun hm => ha' (List.mem_cons_of_mem _ hm)) h2
          exact ⟨by rw [e1], e2⟩

/-- The reversed cache key, exposing the underscore-joined components from
the right. -/
lemma reverse_mkCacheKey (e xs ys : List Char) (dark : Bool) :
    (mkCacheKey e xs ys dark).reverse
      = (themeStr dark).reverse ++ '_' ::
          (ys.reverse ++ '_' :: (xs.reverse ++ '_' :: e.reverse)) := by
  simp [mkCacheKey, List.reverse_append, List.reverse_cons, List.append_assoc]

/-- C6 counterexample: the raw inputs "x^2" and "x^2 " (trailing space) are
different expression texts, yet the controller trims the input before keying
(src line 317), so both requests store under the same cache key. -/
theorem c6_counterexample_trailing_space_same_key :
    "x^2 ".data ≠ "x^2".data ∧
    (plotFunction parseJustXsq "x^2 ".data 1 2
        initialState).state.cachedPlots.map Prod.fst
      = (plotFunction parseJustXsq "x^2".data 1 2
          initialState).state.cachedPlots.map Prod.fst :=
  ⟨by decide, rfl⟩

/-- C6 amended: the cache key is the underscore-join of the trimmed
expression text, the two number strings and the theme string; since the
number and theme components never contain an underscore, distinct component
tuples always give distinct keys — but raw expression texts differing only in
leading/trailing whitespace are trimmed before keying and therefore share a
key. -/
theorem c6_amended_key_injective_after_trim (e1 e2 x1 x2 y1 y2 : List Char)
    (d1 d2 : Bool) (hx1 : '_' ∉ x1) (hx2 : '_' ∉ x2) (hy1 : '_' ∉ y1)
    (hy2 : '_' ∉ y2) (h : mkCacheKey e1 x1 y1 d1 = mkCacheKey e2 x2 y2 d2) :
    e1 = e2 ∧ x1 = x2 ∧ y1 = y2 ∧ d1 = d2 := by
  have hrev := congrArg List.reverse h
  rw [reverse_mkCacheKey, reverse_mkCacheKey] at hrev
  have hth1 : '_' ∉ (themeStr d1).reverse := by cases d1 <;> decide
  have hth2 : '_' ∉ (themeStr d2).reverse := by cases d2 <;> decide
  obtain ⟨ht, hrest⟩ := sep_split _ _ _ _ hth1 hth2 hrev
  obtain ⟨hy, hrest2⟩ := sep_split _ _ _ _ (by simpa using hy1)
    (by simpa using hy2) hrest
  obtain ⟨hx, he⟩ := sep_split _ _ _ _ (by simpa using hx1)
    (by simpa using hx2) hrest2
  refine ⟨List.reverse_injective he, List.reverse_injective hx,
    List.reverse_injective hy, ?_⟩
  cases d1 <;> cases d2 <;> revert ht <;> decide

/-- Witness for the amended C6 at the key components ("x^2", "1", "2",
light theme). -/
theorem c6_amended_key_injective_after_trim_witness :
    ('_' ∉ "1".data ∧ '_' ∉ "2".data) ∧
    ("x^2".data = "x^2".data ∧ "1".data = "1".data ∧ "2".data = "2".data ∧
      false = false) :=
  ⟨⟨by decide, by decide⟩,
    c6_amended_key_injective_after_trim "x^2".data "x^2".data "1".data
      "1".data "2".data "2".data false false (by decide) (by decide)
      (by decide) (by decide) rfl⟩

/-- C4 counterexample: for the expression 1/x the 3D grid contains x = 0 (at
index 20), the sampler returns normally (no error is surfaced, since
JavaScript division by zero does not throw), and the surface series handed to
the renderer contains the infinite value. -/
theorem c4_counterexample_infinity_reaches_renderer :
    grid3D.getD 20 1 = 0 ∧
    JsNum.inf ∈ ((generate3DPlotData oneOverX 1 2 ⟨true, true, true, true,
      true⟩ false).surface.z.getD 20 []) ∧
    Trace3D.surfaceT (generate3DPlotData oneOverX 1 2 ⟨true, true, true,
      true, true⟩ false).surface
      ∈ render3DTraces (generate3DPlotData oneOverX 1 2 ⟨true, true, true,
          true, true⟩ false) := by
  refine ⟨by with_unfolding_all decide, by with_unfolding_all decide,
    List.mem_filter.mpr ⟨?_, rfl⟩⟩
  simp

/-- C4 amended: grid evaluation of 1/x yields Infinity exactly in the grid
row at x = 0 (index 20), every other row of the height grid is entirely
finite, and the whole 40-row grid is produced (the operation is not aborted:
the non-finite values pass through, confined to the affected cells). -/
theorem c4_amended_infinity_confined :
    ((generate3DPlotData oneOverX 1 2 ⟨true, true, true, true, true⟩
        false).surface.z.getD 20 []).all JsNum.isInf = true ∧
    ((List.range 40).all fun i =>
      (i == 20) ||
        ((generate3DPlotData oneOverX 1 2 ⟨true, true, true, true, true⟩
            false).surface.z.getD i []).all JsNum.isFinite) = true ∧
    (generate3DPlotData oneOverX 1 2 ⟨true, true, true, true, true⟩
        false).surface.z.length = 40 :=
  ⟨by with_unfolding_all decide, by with_unfolding_all decide,
    by with_unfolding_all decide⟩

/-- C5 counterexample: the expression 1/x is accepted by validation (it
parses and test-evaluates at (1,1)), yet at the grid point x = 0 — a point of
the sampling domain — its value is not a finite real but Infinity: validation
does not guarantee evaluability across the domain. -/
theorem c5_counterexample_accepted_but_undefined :
    validateExpression parseJustRecip "1/x".data = some oneOverX ∧
    (0 : ℚ) ∈ grid3D ∧
    evalExpr oneOverX 0 0 = JsNum.inf ∧
    (evalExpr oneOverX 0 0).isFinite = false :=
  ⟨by decide, by with_unfolding_all decide, by decide, by decide⟩

/-- C5 amended: an expression accepted by validation did parse successfully,
and grid sampling on it always completes over the full grid (evaluation never
throws); but acceptance certifies evaluation only at the single test point,
not finite values across the domain. -/
theorem c5_amended_validation_certifies_parse_only
    (parse : List Char → Option Expr) (s : List Char) (e : Expr)
    (x0 y0 : ℚ) (vis : Visibility) (dark : Bool)
    (h : validateExpression parse s = some e) :
    parse s = some e ∧
    (generate3DPlotData e x0 y0 vis dark).surface.z.length = grid3D.length ∧
    ∀ row ∈ (generate3DPlotData e x0 y0 vis dark).surface.z,
      row.length = grid3D.length := by
  refine ⟨?_, by simp [generate3DPlotData], ?_⟩
  · cases hp : parse s with
    | none => simp [validateExpression, hp] at h
    | some e' =>
        simp [validateExpression, hp] at h
        rw [h]
  · intro row hrow
    simp only [generate3DPlotData, List.mem_map] at hrow
    obtain ⟨x, _, rfl⟩ := hrow
    simp

/-- Witness for the amended C5 at the accepted expression 1/x. -/
theorem c5_amended_validation_certifies_parse_only_witness :
    validateExpression parseJustRecip "1/x".data = some oneOverX ∧
    (parseJustRecip "1/x".data = some oneOverX ∧
     (generate3DPlotData oneOverX 1 2 ⟨true, true, true, true, true⟩
        false).surface.z.length = grid3D.length ∧
     ∀ row ∈ (generate3DPlotData oneOverX 1 2 ⟨true, true, true, true, true⟩
        false).surface.z, row.length = grid3D.length) :=
  ⟨by decide,
    c5_amended_validation_certifies_parse_only parseJustRecip "1/x".data
      oneOverX 1 2 ⟨true, true, true, true, true⟩ false (by decide)⟩

end CalcViz
